import Mathlib

/-!
Shallow embedding of `src/coding/json_validator.py` and
`src/terraform/modules/autoscaling/refresh_lambda.py`.

JSON values are modelled as a tree; Python dicts become association lists
(insertion order preserved, keys unique for dicts produced by the JSON
parser). JSON numbers are modelled as integers: every concrete number
appearing in the claims is an integer, and only truthiness (zero versus
nonzero) of numbers matters to the code under study.
-/

/-- A parsed JSON value (the tree produced by `json.loads`). -/
inductive Json where
  | null
  | bool (b : Bool)
  | num (n : Int)
  | str (s : String)
  | arr (items : List Json)
  | obj (entries : List (String × Json))

/-- Python `d.get(key)` on a dict rendered as an association list:
first-match lookup (dicts have unique keys, so first match is the match). -/
def dictGet (entries : List (String × Json)) (key : String) : Option Json :=
  match entries with
  | [] => none
  | (k, v) :: rest => if k = key then some v else dictGet rest key

/-- Python `d.get(key, default)`. -/
def dictGetD (entries : List (String × Json)) (key : String) (default : Json) : Json :=
  (dictGet entries key).getD default

/-- Python truthiness of a JSON value: `None`, `False`, `0`, `""`, `[]`
and `{}` are falsy, everything else is truthy. -/
def truthy : Json → Bool
  | .null => false
  | .bool b => b
  | .num n => n != 0
  | .str s => s != ""
  | .arr items => !items.isEmpty
  | .obj entries => !entries.isEmpty

namespace JsonValidator

/-- The exceptions that can escape a pipeline stage in
`json_validator.py`. The first three are the exception classes the module
defines; `uncaughtOSError` stands for an exception the code does not
convert, such as a `PermissionError` raised by `open` (the `try` in
`load_json` only converts `FileNotFoundError` and `JSONDecodeError`). -/
inductive PipelineExc where
  | inputError
  | validationError
  | httpRequestError
  | uncaughtOSError
  deriving DecidableEq, Repr

/-- Outcome of the `open`/`read`/`json.load` sequence inside `load_json`,
abstracting the file system and the external JSON parser:
the file may be missing (`FileNotFoundError`), the open or read may fail
for another reason such as permissions (`otherIOError`), the text may fail
to parse (`JSONDecodeError`), or parsing may yield a value. -/
inductive LoadOutcome where
  | fileNotFound
  | otherIOError
  | badJson
  | parsed (j : Json)

/-- Embedding of `load_json` (json_validator.py lines 45-60): the
`except FileNotFoundError` and `except json.JSONDecodeError` arms raise
`InputError`; any other failure of the `try` body propagates unchanged. -/
def load_json : LoadOutcome → Except PipelineExc Json
  | .fileNotFound => .error .inputError
  | .otherIOError => .error .uncaughtOSError
  | .badJson => .error .inputError
  | .parsed j => .ok j

/-- The per-item predicate of `filter_public`:
`isinstance(item, dict) and not item.get("private", False)`. -/
def keepsItem (item : Json) : Bool :=
  match item with
  | .obj entries => !(truthy (dictGetD entries "private" (.bool false)))
  | _ => false

/-- Embedding of `filter_public` (json_validator.py lines 63-81): a list
keeps the dict items whose `private` entry (defaulting to `False`) is
falsy; a dict keeps the pairs whose value passes the same test; any other
shape raises `ValidationError`. -/
def filter_public : Json → Except PipelineExc Json
  | .arr items => .ok (.arr (items.filter keepsItem))
  | .obj entries => .ok (.obj (entries.filter fun kv => keepsItem kv.2))
  | _ => .error .validationError

/-- Python `list.sort()` on strings: a stable sort by lexicographic
(code-point) order. Insertion sort is extensionally the same function as
the stable sort the interpreter uses. -/
def sortStrings (l : List String) : List String :=
  List.insertionSort (· ≤ ·) l

/-- The test applied to each value by `extract_valid_keys`:
`isinstance(val, Mapping) and val.get("valid") is True` (an identity
check against the boolean `True`, not mere truthiness). -/
def isValidEntry (val : Json) : Bool :=
  match val with
  | .obj m =>
    match dictGet m "valid" with
    | some (.bool true) => true
    | _ => false
  | _ => false

/-- Embedding of `extract_valid_keys` (json_validator.py lines 114-123):
collect the keys whose value passes `isValidEntry`, then sort them. -/
def extract_valid_keys (response_map : List (String × Json)) : List String :=
  sortStrings ((response_map.filter fun kv => isValidEntry kv.2).map Prod.fst)

/-- Outcome of `json.loads` applied to an HTTP response body. -/
inductive BodyParse where
  | invalid
  | value (j : Json)

/-- Observable outcome of `requests.post`, abstracting the transport:
either the request itself fails (`RequestException`), or a response
arrives carrying a status code and a body. -/
inductive PostOutcome where
  | netFailure
  | response (status : Nat) (body : BodyParse)

/-- Python `str.rstrip("/")`: remove every trailing slash. -/
def pyRstripSlash (s : String) : String :=
  String.mk ((s.data.reverse.dropWhile fun c => c == '/').reverse)

/-- The POST target built on json_validator.py line 89:
`base_url.rstrip("/") + "/service/generate"`. -/
def targetUrl (base_url : String) : String :=
  pyRstripSlash base_url ++ "/service/generate"

/-- Whether `resp.raise_for_status()` raises: requests raises exactly for
status codes 400-599 (client and server errors). -/
def raisesForStatus (status : Nat) : Bool :=
  decide (400 ≤ status ∧ status < 600)

/-- Embedding of `post_generate` (json_validator.py lines 84-111) as a
function of the observed transport outcome: a `RequestException`
(including the `HTTPError` from `raise_for_status`) becomes
`HTTPRequestError`; an unparsable body becomes `HTTPRequestError`; a
parsed body that is not a dict becomes `HTTPRequestError`; otherwise the
parsed dict is returned. -/
def post_generate : PostOutcome → Except PipelineExc (List (String × Json))
  | .netFailure => .error .httpRequestError
  | .response status body =>
    if raisesForStatus status then .error .httpRequestError
    else
      match body with
      | .invalid => .error .httpRequestError
      | .value (.obj entries) => .ok entries
      | .value _ => .error .httpRequestError

/-- The exit code chosen by the `except` clauses of `main`
(json_validator.py lines 146-151): the three module exceptions map to 2,
anything else reaches `except Exception` and maps to 1. -/
def exitCode : PipelineExc → Int
  | .inputError => 2
  | .validationError => 2
  | .httpRequestError => 2
  | .uncaughtOSError => 1

/-- The failure taxonomy of the spec: a recognized pipeline failure is
one of the three exception classes the module defines, exactly the
tuple caught by the first `except` clause of `main`. -/
def recognizedExc (e : PipelineExc) : Prop :=
  e = .inputError ∨ e = .validationError ∨ e = .httpRequestError

instance (e : PipelineExc) : Decidable (recognizedExc e) :=
  inferInstanceAs (Decidable (_ ∨ _ ∨ _))

/-- Embedding of `main` (json_validator.py lines 136-151): run
`load_json`, `filter_public`, `post_generate`, `extract_valid_keys` in
sequence; on success print each key (second component) and return 0;
the first escaping exception selects the exit code. -/
def main (load : LoadOutcome) (post : PostOutcome) : Int × List String :=
  match load_json load with
  | .error e => (exitCode e, [])
  | .ok raw =>
    match filter_public raw with
    | .error e => (exitCode e, [])
    | .ok _payload =>
      match post_generate post with
      | .error e => (exitCode e, [])
      | .ok respMap => (0, extract_valid_keys respMap)

example : filter_public (.arr [.obj [("a", .num 1)], .obj [("a", .num 2), ("private", .bool true)]])
    = .ok (.arr [.obj [("a", .num 1)]]) := rfl

example : filter_public (.obj [("x", .obj [("v", .num 1)]), ("y", .obj [("v", .num 2), ("private", .bool true)])])
    = .ok (.obj [("x", .obj [("v", .num 1)])]) := rfl

example : extract_valid_keys
    [("k1", .obj [("valid", .bool true)]), ("k2", .obj [("valid", .bool false)]), ("k3", .str "notadict")]
    = ["k1"] := rfl

example : filter_public (.num 42) = .error .validationError := rfl

example : main (.parsed (.num 42)) (.response 200 (.value (.obj []))) = (2, []) := rfl

example : targetUrl "https://example.com/" = "https://example.com/service/generate" := rfl

end JsonValidator

namespace RefreshLambda

/-- Outcome of `client.start_instance_refresh`, abstracting the
provider SDK: success returns a response dict;
`botocore.exceptions.ClientError` carries a message and, inside its
response, an optional error code (`e.response.get("Error", {}).get("Code")`);
any other exception carries only a message. -/
inductive RefreshOutcome where
  | ok (resp : List (String × Json))
  | clientError (msg : String) (code : Option String)
  | otherError (msg : String)

/-- Embedding of refresh_lambda.py line 31:
`resp.get("InstanceRefreshId") or resp.get("InstanceRefreshId", "unknown")`.
Python `x or y` yields `x` when `x` is truthy (a missing key makes the
first `get` return the falsy `None`), and `y` otherwise; the second
`get` falls back to `"unknown"` only when the key is absent. -/
def instanceRefreshId (resp : List (String × Json)) : Json :=
  match dictGet resp "InstanceRefreshId" with
  | some v => if truthy v then v else dictGetD resp "InstanceRefreshId" (.str "unknown")
  | none => dictGetD resp "InstanceRefreshId" (.str "unknown")

/-- Embedding of `lambda_handler` (refresh_lambda.py lines 9-40) as a
function of the `ASG_NAME` environment variable (`none` when unset; the
code guards with `if not asg`, which also catches the empty string) and
of the outcome of the provider call. The second component records
whether `start_instance_refresh` was invoked. The `try` block catches
`ClientError` and then every other `Exception`, so each arm returns a
dict and no exception propagates to the caller. A `None` error code is
rendered as JSON null. -/
def lambda_handler (asgName : Option String) (outcome : RefreshOutcome) :
    Json × Bool :=
  match asgName with
  | none => (.obj [("status", .str "error"), ("message", .str "ASG_NAME not set")], false)
  | some asg =>
    if asg = "" then
      (.obj [("status", .str "error"), ("message", .str "ASG_NAME not set")], false)
    else
      match outcome with
      | .ok resp =>
        (.obj [("status", .str "started"),
               ("instance_refresh_id", instanceRefreshId resp),
               ("raw_response", .obj resp)], true)
      | .clientError msg code =>
        (.obj [("status", .str "error"), ("message", .str msg),
               ("code", match code with | some c => .str c | none => .null)], true)
      | .otherError msg =>
        (.obj [("status", .str "error"), ("message", .str msg)], true)

example : lambda_handler none (.otherError "boom")
    = (.obj [("status", .str "error"), ("message", .str "ASG_NAME not set")], false) := rfl

example : lambda_handler (some "asg") (.ok [])
    = (.obj [("status", .str "started"), ("instance_refresh_id", .str "unknown"),
             ("raw_response", .obj [])], true) := rfl

end RefreshLambda

/-! Helper lemmas shared by the claim theorems. -/

namespace JsonValidator

theorem keepsItem_iff (item : Json) :
    keepsItem item = true ↔
      ∃ entries, item = Json.obj entries ∧
        truthy (dictGetD entries "private" (.bool false)) = false := by
  cases item <;> simp [keepsItem]

theorem isValidEntry_iff (val : Json) :
    isValidEntry val = true ↔
      ∃ m, val = Json.obj m ∧ dictGet m "valid" = some (Json.bool true) := by
  cases val with
  | obj m =>
    simp only [isValidEntry, Json.obj.injEq]
    cases h : dictGet m "valid" with
    | none => simp [h]
    | some v =>
      cases v <;> simp [h]
      case bool b => cases b <;> simp
  | _ => simp [isValidEntry]

theorem sortStrings_sorted (l : List String) :
    List.Sorted (· ≤ ·) (sortStrings l) :=
  List.sorted_insertionSort _ l

theorem sortStrings_perm (l : List String) : List.Perm (sortStrings l) l :=
  List.perm_insertionSort _ l

end JsonValidator

theorem dictGet_eq_some_iff (entries : List (String × Json)) (k : String) (v : Json)
    (hnd : (entries.map Prod.fst).Nodup) :
    dictGet entries k = some v ↔ (k, v) ∈ entries := by
  induction entries with
  | nil => simp [dictGet]
  | cons kv rest ih =>
    obtain ⟨k1, v1⟩ := kv
    rw [List.map_cons, List.nodup_cons] at hnd
    by_cases hk : k1 = k
    · subst hk
      have hstep : dictGet ((k1, v1) :: rest) k1 = some v1 := by simp [dictGet]
      rw [hstep]
      simp only [Option.some.injEq, List.mem_cons, Prod.mk.injEq, eq_self_iff_true, true_and]
      constructor
      · intro h; exact Or.inl h.symm
      · rintro (hv | hmem)
        · exact hv.symm
        · exact absurd (List.mem_map_of_mem Prod.fst hmem) hnd.1
    · have hstep : dictGet ((k1, v1) :: rest) k = dictGet rest k := by
        simp [dictGet, hk]
      rw [hstep, ih hnd.2]
      simp only [List.mem_cons, Prod.mk.injEq]
      constructor
      · exact fun h => Or.inr h
      · rintro (⟨hkk, -⟩ | h)
        · exact absurd hkk.symm hk
        · exact h

namespace JsonValidator

/-- Claim C1 (amended): for every input whose top level is a list,
`filter_public` returns the order-preserving subsequence of exactly
those elements that are dicts whose `private` entry, defaulting to
false, is not truthy under Python truthiness (rather than merely "not
strictly true": a truthy non-boolean value such as the number 1 also
causes removal). -/
theorem C1_filter_list (items : List Json) :
    ∃ kept : List Json,
      filter_public (.arr items) = .ok (.arr kept) ∧
      kept.Sublist items ∧
      ∀ item : Json, item ∈ kept ↔
        (item ∈ items ∧ ∃ entries, item = Json.obj entries ∧
          truthy (dictGetD entries "private" (.bool false)) = false) := by
  refine ⟨items.filter keepsItem, rfl, List.filter_sublist items, fun item => ?_⟩
  rw [List.mem_filter, keepsItem_iff]

/-- Claim C1 as stated is false on the code: in the input
`[{"private": 1}]` the sole element is a dict whose `private` entry is
present and is not the boolean true, so the claim retains it, yet
`filter_public` drops it (the code tests Python truthiness). -/
theorem C1_counterexample :
    filter_public (.arr [.obj [("private", .num 1)]]) = .ok (.arr []) ∧
    dictGet [("private", Json.num 1)] "private" = some (Json.num 1) ∧
    Json.num 1 ≠ Json.bool true :=
  ⟨rfl, rfl, fun h => nomatch h⟩

/-- Claim C3 (amended): for every input whose top level is a dict,
`filter_public` returns the dict of exactly those key/value pairs whose
value is a dict whose `private` entry, defaulting to false, is not
truthy under Python truthiness (rather than merely "not strictly
true"); each retained key keeps its original value, and
`{"x":{"v":1},"y":{"v":2,"private":true}}` yields `{"x":{"v":1}}`. -/
theorem C3_filter_map (entries : List (String × Json)) :
    (∃ kept : List (String × Json),
      filter_public (.obj entries) = .ok (.obj kept) ∧
      kept.Sublist entries ∧
      ∀ kv : String × Json, kv ∈ kept ↔
        (kv ∈ entries ∧ ∃ m, kv.2 = Json.obj m ∧
          truthy (dictGetD m "private" (.bool false)) = false)) ∧
    filter_public (.obj [("x", .obj [("v", .num 1)]), ("y", .obj [("v", .num 2), ("private", .bool true)])])
      = .ok (.obj [("x", .obj [("v", .num 1)])]) := by
  refine ⟨⟨entries.filter fun kv => keepsItem kv.2, rfl, List.filter_sublist entries,
    fun kv => ?_⟩, rfl⟩
  rw [List.mem_filter, keepsItem_iff]

/-- Claim C3 as stated is false on the code: in the input
`{"x":{"v":1},"y":{"private":"yes"}}` the value under `"y"` is a dict
whose `private` entry is present and is not the boolean true, so the
claim retains the pair, yet `filter_public` drops it (the code tests
Python truthiness and the nonempty string is truthy). -/
theorem C3_counterexample :
    filter_public (.obj [("x", .obj [("v", .num 1)]), ("y", .obj [("private", .str "yes")])])
      = .ok (.obj [("x", .obj [("v", .num 1)])]) ∧
    dictGet [("private", Json.str "yes")] "private" = some (Json.str "yes") ∧
    Json.str "yes" ≠ Json.bool true :=
  ⟨rfl, rfl, fun h => nomatch h⟩

end JsonValidator

namespace JsonValidator

/-- Claim C2: for every response dict, `extract_valid_keys` returns the
lexicographically sorted, duplicate-free list of exactly those keys
whose value is a dict whose `valid` entry is exactly the boolean true;
the function is a total pure function (its type is `List String` with no
error channel), and the empty response yields the empty list. -/
theorem C2_extract_valid_keys (response_map : List (String × Json))
    (hnd : (response_map.map Prod.fst).Nodup) :
    List.Sorted (· ≤ ·) (extract_valid_keys response_map) ∧
    (extract_valid_keys response_map).Nodup ∧
    (∀ k : String, k ∈ extract_valid_keys response_map ↔
      ∃ m, dictGet response_map k = some (Json.obj m) ∧
        dictGet m "valid" = some (Json.bool true)) ∧
    extract_valid_keys [] = [] := by
  refine ⟨sortStrings_sorted _, ?_, ?_, rfl⟩
  · have hsub : ((response_map.filter fun kv => isValidEntry kv.2).map Prod.fst).Sublist
        (response_map.map Prod.fst) :=
      (List.filter_sublist response_map).map Prod.fst
    exact (sortStrings_perm _).symm.nodup (hnd.sublist hsub)
  · intro k
    rw [show extract_valid_keys response_map
        = sortStrings ((response_map.filter fun kv => isValidEntry kv.2).map Prod.fst) from rfl]
    rw [(sortStrings_perm _).mem_iff]
    simp only [List.mem_map, List.mem_filter]
    constructor
    · rintro ⟨⟨k2, v⟩, ⟨hmem, hvalid⟩, rfl⟩
      obtain ⟨m, rfl, hv⟩ := (isValidEntry_iff v).mp hvalid
      exact ⟨m, (dictGet_eq_some_iff _ _ _ hnd).mpr hmem, hv⟩
    · rintro ⟨m, hget, hv⟩
      refine ⟨(k, .obj m), ⟨(dictGet_eq_some_iff _ _ _ hnd).mp hget, ?_⟩, rfl⟩
      exact (isValidEntry_iff _).mpr ⟨m, rfl, hv⟩

/-- Witness for claim C2 at the response of scenario 3. -/
theorem C2_witness :
    (([("k1", Json.obj [("valid", Json.bool true)]),
       ("k2", Json.obj [("valid", Json.bool false)]),
       ("k3", Json.str "notadict")].map Prod.fst).Nodup) ∧
    (List.Sorted (· ≤ ·) (extract_valid_keys
        [("k1", Json.obj [("valid", Json.bool true)]),
         ("k2", Json.obj [("valid", Json.bool false)]),
         ("k3", Json.str "notadict")]) ∧
      (extract_valid_keys
        [("k1", Json.obj [("valid", Json.bool true)]),
         ("k2", Json.obj [("valid", Json.bool false)]),
         ("k3", Json.str "notadict")]).Nodup ∧
      (∀ k : String, k ∈ extract_valid_keys
        [("k1", Json.obj [("valid", Json.bool true)]),
         ("k2", Json.obj [("valid", Json.bool false)]),
         ("k3", Json.str "notadict")] ↔
        ∃ m, dictGet
          [("k1", Json.obj [("valid", Json.bool true)]),
           ("k2", Json.obj [("valid", Json.bool false)]),
           ("k3", Json.str "notadict")] k = some (Json.obj m) ∧
          dictGet m "valid" = some (Json.bool true)) ∧
      extract_valid_keys [] = []) :=
  ⟨by decide, C2_extract_valid_keys _ (by decide)⟩

/-- Claim C4: `main` returns exit status 0 on success, with the printed
lines (second component) being the extracted keys in sorted order; it
returns exit status 2 whenever the stage that aborts the pipeline raises
one of the three recognized exceptions (Input, Validation, HTTP); and it
returns exit status 1 when the aborting exception is not one of those. -/
theorem C4_main_exit_codes (lo : LoadOutcome) (po : PostOutcome) :
    (∀ raw payload respMap,
      load_json lo = .ok raw → filter_public raw = .ok payload →
      post_generate po = .ok respMap →
      main lo po = (0, extract_valid_keys respMap) ∧
        List.Sorted (· ≤ ·) (extract_valid_keys respMap)) ∧
    (∀ e : PipelineExc,
      (load_json lo = .error e ∨
       (∃ raw, load_json lo = .ok raw ∧ filter_public raw = .error e) ∨
       (∃ raw payload, load_json lo = .ok raw ∧ filter_public raw = .ok payload ∧
         post_generate po = .error e)) →
      ((recognizedExc e → main lo po = (2, [])) ∧
       (¬ recognizedExc e → main lo po = (1, [])))) := by
  constructor
  · intro raw payload respMap h1 h2 h3
    refine ⟨?_, sortStrings_sorted _⟩
    simp [main, h1, h2, h3]
  · intro e he
    have hmain : main lo po = (exitCode e, []) := by
      rcases he with h | ⟨raw, h1, h2⟩ | ⟨raw, payload, h1, h2, h3⟩
      · simp [main, h]
      · simp [main, h1, h2]
      · simp [main, h1, h2, h3]
    constructor
    · intro hrec
      have h2code : exitCode e = 2 := by
        rcases hrec with h | h | h <;> subst h <;> rfl
      rw [hmain, h2code]
    · intro hnrec
      have h1code : exitCode e = 1 := by
        cases e with
        | inputError => exact absurd (Or.inl rfl) hnrec
        | validationError => exact absurd (Or.inr (Or.inl rfl)) hnrec
        | httpRequestError => exact absurd (Or.inr (Or.inr rfl)) hnrec
        | uncaughtOSError => rfl
      rw [hmain, h1code]

/-- Witness for claim C4: a successful run exits 0 printing the sorted
keys, an aborted run with a recognized exception exits 2, and an
aborted run with an unrecognized exception exits 1. -/
theorem C4_witness :
    main (.parsed (.arr []))
        (.response 200 (.value (.obj [("k1", .obj [("valid", .bool true)])]))) = (0, ["k1"]) ∧
    main .fileNotFound (.response 200 (.value (.obj []))) = (2, []) ∧
    main .otherIOError (.response 200 (.value (.obj []))) = (1, []) := by
  refine ⟨?_, ?_, ?_⟩
  · exact ((C4_main_exit_codes (.parsed (.arr []))
      (.response 200 (.value (.obj [("k1", .obj [("valid", .bool true)])])))).1
      (.arr []) (.arr []) [("k1", .obj [("valid", .bool true)])] rfl rfl rfl).1
  · exact ((C4_main_exit_codes .fileNotFound (.response 200 (.value (.obj [])))).2
      .inputError (Or.inl rfl)).1 (Or.inl rfl)
  · exact ((C4_main_exit_codes .otherIOError (.response 200 (.value (.obj [])))).2
      .uncaughtOSError (Or.inl rfl)).2 (by decide)

/-- Claim C5: for every parsed JSON value whose top level is neither a
list nor a dict, `filter_public` raises `ValidationError`, and the
pipeline then exits with status 2 printing nothing. -/
theorem C5_scalar_rejected (j : Json)
    (harr : ∀ items, j ≠ Json.arr items) (hobj : ∀ entries, j ≠ Json.obj entries) :
    filter_public j = .error .validationError ∧
    ∀ po : PostOutcome, main (.parsed j) po = (2, []) := by
  have hf : filter_public j = .error .validationError := by
    cases j with
    | arr items => exact absurd rfl (harr items)
    | obj entries => exact absurd rfl (hobj entries)
    | null => rfl
    | bool b => rfl
    | num n => rfl
    | str s => rfl
  exact ⟨hf, fun po => by simp [main, load_json, hf, exitCode]⟩

/-- Witness for claim C5 at the bare JSON number 42 (scenario 4). -/
theorem C5_witness :
    ((∀ items, Json.num 42 ≠ Json.arr items) ∧
     (∀ entries, Json.num 42 ≠ Json.obj entries)) ∧
    (filter_public (Json.num 42) = .error .validationError ∧
     ∀ po : PostOutcome, main (.parsed (Json.num 42)) po = (2, [])) := by
  refine ⟨⟨(fun items h => nomatch h), (fun entries h => nomatch h)⟩, ?_⟩
  exact C5_scalar_rejected (Json.num 42)
    (fun items h => nomatch h) (fun entries h => nomatch h)

end JsonValidator

namespace JsonValidator

/-- Claim C6 (amended): `load_json` raises `InputError` exactly when the
file is missing (`FileNotFoundError`) or the contents fail JSON parsing
(`JSONDecodeError`); a successful parse is returned unchanged; and a
nonexistent source file yields `InputError` with pipeline exit code 2.
Open or read failures other than a missing file are not converted and
propagate past `load_json` unchanged. -/
theorem C6_load_json (lo : LoadOutcome) (po : PostOutcome) :
    (load_json lo = .error .inputError ↔
      (lo = .fileNotFound ∨ lo = .badJson)) ∧
    (∀ j, lo = .parsed j → load_json lo = .ok j) ∧
    (lo = .fileNotFound → main lo po = (2, [])) := by
  refine ⟨?_, ?_, ?_⟩
  · cases lo <;> simp [load_json]
  · rintro j rfl; rfl
  · rintro rfl; rfl

/-- Witness for claim C6 at the nonexistent-source outcome, scenario 5. -/
theorem C6_witness :
    load_json .fileNotFound = .error .inputError ∧
    main .fileNotFound (.response 200 (.value (.obj []))) = (2, []) :=
  ⟨((C6_load_json .fileNotFound (.response 200 (.value (.obj [])))).1).mpr (Or.inl rfl),
   (C6_load_json .fileNotFound (.response 200 (.value (.obj [])))).2.2 rfl⟩

/-- Claim C6 as stated is false on the code: an open or read failure
other than a missing file (for example a permission error) is a case
where the source cannot be opened or read, yet `load_json` does not
convert it to `InputError` (the exception propagates unchanged) and the
pipeline exits with status 1, not 2. -/
theorem C6_counterexample :
    load_json .otherIOError = .error .uncaughtOSError ∧
    PipelineExc.uncaughtOSError ≠ PipelineExc.inputError ∧
    main .otherIOError (.response 200 (.value (.obj []))) = (1, []) :=
  ⟨rfl, by decide, rfl⟩

/-- Claim C7 (amended): `post_generate` raises `HTTPRequestError`
exactly when the request fails at the network level, the response
status is in 400-599 (the statuses `raise_for_status` raises for,
rather than every non-2xx status), the response body is not well-formed
JSON, or the parsed response is not a dict; in every other case it
returns the parsed response dict. -/
theorem C7_post_generate (po : PostOutcome) :
    (po = .netFailure → post_generate po = .error .httpRequestError) ∧
    (∀ status body, po = .response status body →
      ((400 ≤ status ∧ status < 600) → post_generate po = .error .httpRequestError) ∧
      (¬ (400 ≤ status ∧ status < 600) →
        (body = .invalid → post_generate po = .error .httpRequestError) ∧
        (∀ j, body = .value j → (∀ entries, j ≠ Json.obj entries) →
          post_generate po = .error .httpRequestError) ∧
        (∀ entries, body = .value (.obj entries) → post_generate po = .ok entries))) := by
  refine ⟨fun h => by subst h; rfl, ?_⟩
  rintro status body rfl
  constructor
  · intro hs
    have hif : raisesForStatus status = true := by
      simp only [raisesForStatus, decide_eq_true_eq]; exact hs
    simp [post_generate, hif]
  · intro hns
    have hif : raisesForStatus status = false := by
      simp only [raisesForStatus, decide_eq_false_iff_not]; exact hns
    refine ⟨?_, ?_, ?_⟩
    · rintro rfl; simp [post_generate, hif]
    · rintro j rfl hnot
      cases j with
      | obj entries => exact absurd rfl (hnot entries)
      | null => simp [post_generate, hif]
      | bool b => simp [post_generate, hif]
      | num n => simp [post_generate, hif]
      | str s => simp [post_generate, hif]
      | arr items => simp [post_generate, hif]
    · rintro entries rfl; simp [post_generate, hif]

/-- Witness for claim C7 at concrete transport outcomes: network
failure, a 404 with dict body, a 200 with unparsable body, a 200 with a
non-dict body, and a 200 with a dict body. -/
theorem C7_witness :
    post_generate .netFailure = .error .httpRequestError ∧
    post_generate (.response 404 (.value (.obj []))) = .error .httpRequestError ∧
    post_generate (.response 200 .invalid) = .error .httpRequestError ∧
    post_generate (.response 200 (.value (.arr []))) = .error .httpRequestError ∧
    post_generate (.response 200 (.value (.obj [("a", .null)]))) = .ok [("a", .null)] := by
  refine ⟨(C7_post_generate .netFailure).1 rfl, ?_, ?_, ?_, ?_⟩
  · exact ((C7_post_generate (.response 404 (.value (.obj [])))).2 404 _ rfl).1 (by decide)
  · exact (((C7_post_generate (.response 200 .invalid)).2 200 _ rfl).2 (by decide)).1 rfl
  · exact (((C7_post_generate (.response 200 (.value (.arr [])))).2 200 _ rfl).2
      (by decide)).2.1 (.arr []) rfl (fun entries h => nomatch h)
  · exact (((C7_post_generate (.response 200 (.value (.obj [("a", .null)])))).2 200 _ rfl).2
      (by decide)).2.2 [("a", .null)] rfl

/-- Claim C7 as stated is false on the code: a response with the
redirect status 301 (which is not 2xx) whose body parses to a dict is
returned successfully with no HTTP error, because `raise_for_status`
only raises for statuses 400-599. -/
theorem C7_counterexample :
    post_generate (.response 301 (.value (.obj []))) = .ok [] ∧
    ¬ (200 ≤ 301 ∧ 301 < 300) :=
  ⟨rfl, by decide⟩

/-- Claim C8: for every base address, the POST target is the base with
its trailing run of path separators removed, followed by the fixed
sub-path `/service/generate`: the base splits as a stem plus a suffix
made of separators only, the stem does not end in a separator, and the
target is the stem followed by the sub-path. -/
theorem C8_targetUrl (base_url : String) :
    ∃ stem slashes : String,
      base_url = stem ++ slashes ∧
      (∀ c ∈ slashes.data, c = '/') ∧
      stem.data.getLast? ≠ some '/' ∧
      targetUrl base_url = stem ++ "/service/generate" := by
  obtain ⟨cs⟩ := base_url
  have hsplit : cs.reverse.takeWhile (fun c => c == '/') ++ cs.reverse.dropWhile (fun c => c == '/')
      = cs.reverse := List.takeWhile_append_dropWhile (fun c => c == '/') cs.reverse
  have h1 : cs = ((cs.reverse.dropWhile fun c => c == '/').reverse)
      ++ ((cs.reverse.takeWhile fun c => c == '/').reverse) := by
    rw [← List.reverse_append, hsplit, List.reverse_reverse]
  refine ⟨String.mk ((cs.reverse.dropWhile fun c => c == '/').reverse),
          String.mk ((cs.reverse.takeWhile fun c => c == '/').reverse), ?_, ?_, ?_, rfl⟩
  · exact congrArg String.mk h1
  · intro c hc
    rw [show (String.mk ((cs.reverse.takeWhile fun c => c == '/').reverse)).data
        = (cs.reverse.takeWhile fun c => c == '/').reverse from rfl,
      List.mem_reverse] at hc
    have := List.mem_takeWhile_imp hc
    simpa using this
  · rw [show (String.mk ((cs.reverse.dropWhile fun c => c == '/').reverse)).data
        = (cs.reverse.dropWhile fun c => c == '/').reverse from rfl,
      List.getLast?_reverse]
    intro h
    have := List.head?_dropWhile_not (fun c => c == '/') cs.reverse
    rw [h] at this
    simp at this

/-- Witness for claim C8 at the concrete base address of the module
docstring, with a trailing slash. -/
theorem C8_witness :
    ∃ stem slashes : String,
      "https://example.com/" = stem ++ slashes ∧
      (∀ c ∈ slashes.data, c = '/') ∧
      stem.data.getLast? ≠ some '/' ∧
      targetUrl "https://example.com/" = stem ++ "/service/generate" :=
  C8_targetUrl "https://example.com/"

end JsonValidator

namespace RefreshLambda

/-- Claim C9: `lambda_handler` always returns a structured result and
never lets an exception escape: with the group name unset or empty it
returns the fixed error dict without invoking the provider call (the
second component records whether `start_instance_refresh` was invoked);
a provider `ClientError` becomes an error dict carrying the message and
the provider error code; any other exception becomes an error dict
carrying the message; and in every case the returned value is a dict
whose `status` field is either `"started"` or `"error"`. -/
theorem C9_lambda_handler (asgName : Option String) (outcome : RefreshOutcome) :
    ((asgName = none ∨ asgName = some "") →
      lambda_handler asgName outcome =
        (.obj [("status", .str "error"), ("message", .str "ASG_NAME not set")], false)) ∧
    (∀ asg, asgName = some asg → asg ≠ "" →
      (∀ msg code, outcome = .clientError msg code →
        lambda_handler asgName outcome =
          (.obj [("status", .str "error"), ("message", .str msg),
                 ("code", match code with | some c => .str c | none => .null)], true)) ∧
      (∀ msg, outcome = .otherError msg →
        lambda_handler asgName outcome =
          (.obj [("status", .str "error"), ("message", .str msg)], true))) ∧
    (∃ entries attempted, lambda_handler asgName outcome = (.obj entries, attempted) ∧
      (dictGet entries "status" = some (.str "started") ∨
       dictGet entries "status" = some (.str "error"))) := by
  refine ⟨?_, ?_, ?_⟩
  · rintro (rfl | rfl)
    · rfl
    · rfl
  · rintro asg rfl hne
    constructor
    · rintro msg code rfl
      simp [lambda_handler, hne]
    · rintro msg rfl
      simp [lambda_handler, hne]
  · cases asgName with
    | none => exact ⟨_, _, rfl, Or.inr rfl⟩
    | some asg =>
      by_cases h : asg = ""
      · subst h; exact ⟨_, _, rfl, Or.inr rfl⟩
      · cases outcome with
        | ok resp =>
          exact ⟨[("status", .str "started"), ("instance_refresh_id", instanceRefreshId resp),
                  ("raw_response", .obj resp)], true, by simp [lambda_handler, h], Or.inl rfl⟩
        | clientError msg code =>
          exact ⟨[("status", .str "error"), ("message", .str msg),
                  ("code", match code with | some c => .str c | none => .null)], true,
                 by simp [lambda_handler, h], Or.inr rfl⟩
        | otherError msg =>
          exact ⟨[("status", .str "error"), ("message", .str msg)], true,
                 by simp [lambda_handler, h], Or.inr rfl⟩

/-- Witness for claim C9: scenario 6 (no group-name variable: the fixed
error dict, no remote call attempted) and a provider error at concrete
inputs. -/
theorem C9_witness :
    lambda_handler none (.ok []) =
      (.obj [("status", .str "error"), ("message", .str "ASG_NAME not set")], false) ∧
    lambda_handler (some "my-asg") (.clientError "denied" (some "AccessDenied")) =
      (.obj [("status", .str "error"), ("message", .str "denied"),
             ("code", .str "AccessDenied")], true) := by
  constructor
  · exact (C9_lambda_handler none (.ok [])).1 (Or.inl rfl)
  · exact ((C9_lambda_handler (some "my-asg")
      (.clientError "denied" (some "AccessDenied"))).2.1
      "my-asg" rfl (by decide)).1 "denied" (some "AccessDenied") rfl

/-- Claim C10: when the provider call succeeds but its response lacks
the `InstanceRefreshId` key, `lambda_handler` still reports status
`"started"`, with `instance_refresh_id` equal to the literal string
`"unknown"` instead of a provider-issued identifier. -/
theorem C10_missing_refresh_id (asg : String) (hne : asg ≠ "")
    (resp : List (String × Json)) (habs : dictGet resp "InstanceRefreshId" = none) :
    lambda_handler (some asg) (.ok resp) =
      (.obj [("status", .str "started"), ("instance_refresh_id", .str "unknown"),
             ("raw_response", .obj resp)], true) := by
  simp [lambda_handler, hne, instanceRefreshId, habs, dictGetD]

/-- Witness for claim C10 at a concrete response dict without the
`InstanceRefreshId` key. -/
theorem C10_witness :
    ("my-asg" ≠ "") ∧ dictGet [] "InstanceRefreshId" = none ∧
    lambda_handler (some "my-asg") (.ok []) =
      (.obj [("status", .str "started"), ("instance_refresh_id", .str "unknown"),
             ("raw_response", .obj [])], true) :=
  ⟨by decide, rfl, C10_missing_refresh_id "my-asg" (by decide) [] rfl⟩

end RefreshLambda
